import Mathlib

/-!
Verification of the intent-routing, criteria-extraction, inventory-filter and
conversation-bookkeeping core of the AutoXloo assistant backend
(backend/agents/crew.py and backend/agents/tools.py), as a shallow embedding.

External effects (the uuid generator and the hosted text-generation call) are
passed in as explicit arguments; a generation outcome of `.error` models an
exception raised inside the `try` block of `process_customer_query`.
-/

namespace AutoXloo

/-- Boolean prefix test on character lists, used to model the Python `in`
operator on strings. -/
def isPrefixB : List Char → List Char → Bool
  | [], _ => true
  | _ :: _, [] => false
  | a :: as, b :: bs => a == b && isPrefixB as bs

/-- Helper scanning every suffix of the haystack for the needle. -/
def containsSubAux (needle : List Char) : List Char → Bool
  | [] => isPrefixB needle []
  | c :: cs => isPrefixB needle (c :: cs) || containsSubAux needle cs

/-- Model of the Python expression `sub in s` on strings: substring containment. -/
def strContains (s sub : String) : Bool := containsSubAux sub.data s.data

/-- Model of Python `str.lower()`: per-character ASCII lowering. -/
def pyLower (s : String) : String := ⟨s.data.map Char.toLower⟩

/-- Model of Python `str.upper()`: per-character ASCII uppering. -/
def pyUpper (s : String) : String := ⟨s.data.map Char.toUpper⟩

/-- Model of the Python slice `s[:n]`. -/
def pySlice (s : String) (n : Nat) : String := ⟨s.data.take n⟩

/-- Vehicle record, with the fields read by the inventory filter.  The
`features` and `available` fields are optional because `_search_inventory`
reads them with `dict.get` defaults (`[]` and `True`). -/
structure Vehicle where
  stock_number : String
  make : String
  model : String
  year : Int
  category : String
  price : Int
  features : Option (List String)
  available : Option Bool
  deriving Repr, DecidableEq

/-- Sparse search criteria produced by `_extract_search_criteria`; a `none`
field models the key being absent from the Python dict. -/
structure SearchCriteria where
  max_price : Option Int := none
  min_price : Option Int := none
  category : Option String := none
  make : Option String := none
  year : Option Int := none
  features : Option (List String) := none
  deriving Repr, DecidableEq

/-- Price-ceiling stage of `_search_inventory` (crew.py lines 169-170). -/
def maxPriceFilter (criteria : SearchCriteria) (results : List Vehicle) : List Vehicle :=
  match criteria.max_price with
  | some p => results.filter (fun v => decide (v.price ≤ p))
  | none => results

/-- Price-floor stage of `_search_inventory` (crew.py lines 172-173). -/
def minPriceFilter (criteria : SearchCriteria) (results : List Vehicle) : List Vehicle :=
  match criteria.min_price with
  | some p => results.filter (fun v => decide (p ≤ v.price))
  | none => results

/-- Category stage of `_search_inventory` (crew.py lines 176-177),
case-insensitive equality. -/
def categoryFilter (criteria : SearchCriteria) (results : List Vehicle) : List Vehicle :=
  match criteria.category with
  | some c => results.filter (fun v => pyLower v.category == pyLower c)
  | none => results

/-- Make stage of `_search_inventory` (crew.py lines 180-181),
case-insensitive equality. -/
def makeFilter (criteria : SearchCriteria) (results : List Vehicle) : List Vehicle :=
  match criteria.make with
  | some m => results.filter (fun v => pyLower v.make == pyLower m)
  | none => results

/-- Year stage of `_search_inventory` (crew.py lines 184-185). -/
def yearFilter (criteria : SearchCriteria) (results : List Vehicle) : List Vehicle :=
  match criteria.year with
  | some y => results.filter (fun v => v.year == y)
  | none => results

/-- Feature stage of `_search_inventory` (crew.py lines 188-190): one filter
pass per requested feature, reading the vehicle features with a `[]` default. -/
def featuresFilter (criteria : SearchCriteria) (results : List Vehicle) : List Vehicle :=
  match criteria.features with
  | some fs =>
      fs.foldl (fun acc f => acc.filter (fun v => (v.features.getD []).contains f)) results
  | none => results

/-- Availability stage of `_search_inventory` (crew.py line 193): keeps
vehicles whose `available` flag, defaulted to true when absent, is true. -/
def availabilityFilter (results : List Vehicle) : List Vehicle :=
  results.filter (fun v => v.available.getD true)

/-- Embedding of `AutoXlooCrew._search_inventory` (crew.py lines 164-195):
sequential conjunction of the per-criterion filters, then the availability
filter, then truncation to the first ten matches. -/
def _search_inventory (inventory : List Vehicle) (criteria : SearchCriteria) : List Vehicle :=
  let results : List Vehicle := inventory
  let results : List Vehicle := match criteria.max_price with
    | some p => results.filter (fun v => decide (v.price ≤ p))
    | none => results
  let results : List Vehicle := match criteria.min_price with
    | some p => results.filter (fun v => decide (p ≤ v.price))
    | none => results
  let results : List Vehicle := match criteria.category with
    | some c => results.filter (fun v => pyLower v.category == pyLower c)
    | none => results
  let results : List Vehicle := match criteria.make with
    | some m => results.filter (fun v => pyLower v.make == pyLower m)
    | none => results
  let results : List Vehicle := match criteria.year with
    | some y => results.filter (fun v => v.year == y)
    | none => results
  let results : List Vehicle := match criteria.features with
    | some fs =>
        fs.foldl (fun acc f => acc.filter (fun v => (v.features.getD []).contains f)) results
    | none => results
  let results : List Vehicle := results.filter (fun v => v.available.getD true)
  results.take 10

/-- Fixed list of recognized makes (crew.py line 226). -/
def makes : List String := ["honda", "toyota", "ford", "chevrolet", "nissan", "subaru", "mazda"]

/-- Embedding of `AutoXlooCrew._extract_search_criteria` (crew.py lines
197-243).  `String.capitalize` models Python `str.title()` on these
single-word lowercase make names. -/
def _extract_search_criteria (message : String) : SearchCriteria :=
  let message_lower := pyLower message
  let criteria : SearchCriteria := {}
  let criteria :=
    if strContains message_lower "under" || strContains message_lower "below" then
      if strContains message_lower "30k" || strContains message_lower "30000" ||
          strContains message_lower "30,000" then
        { criteria with max_price := some 30000 }
      else if strContains message_lower "35k" || strContains message_lower "35000" then
        { criteria with max_price := some 35000 }
      else if strContains message_lower "25k" || strContains message_lower "25000" then
        { criteria with max_price := some 25000 }
      else criteria
    else criteria
  let criteria :=
    if strContains message_lower "suv" then { criteria with category := some "suv" }
    else if strContains message_lower "truck" then { criteria with category := some "truck" }
    else if strContains message_lower "sedan" then { criteria with category := some "sedan" }
    else if strContains message_lower "electric" || strContains message_lower "ev" then
      { criteria with category := some "electric" }
    else criteria
  let criteria := makes.foldl
    (fun c mk =>
      if strContains message_lower mk then { c with make := some (String.capitalize mk) } else c)
    criteria
  let fts : List String := []
  let fts :=
    if strContains message_lower "safety" || strContains message_lower "safe" then
      fts ++ ["Blind Spot Monitoring"] else fts
  let fts :=
    if strContains message_lower "navigation" || strContains message_lower "nav" then
      fts ++ ["Navigation System"] else fts
  let fts :=
    if strContains message_lower "leather" then fts ++ ["Leather Seats"] else fts
  if fts ≠ [] then { criteria with features := some fts } else criteria

/-- Conversation turn as stored in `self.conversations` (crew.py lines
392-396); the timestamp slot is filled from the uuid generator. -/
structure Turn where
  role : String
  content : String
  timestamp : String
  deriving Repr, DecidableEq

/-- One entry of the `actions_taken` list of the reply dict. -/
structure Action where
  type : String
  agents : List String
  deriving Repr, DecidableEq

/-- Result dict of `process_customer_query` (crew.py lines 435-449). -/
structure QueryResult where
  response : String
  conversation_id : String
  actions_taken : List Action
  agents_used : List String
  deriving Repr, DecidableEq

/-- Scheduling-route keywords (crew.py line 406). -/
def scheduling_keywords : List String := ["schedule", "test drive", "appointment", "book", "visit"]

/-- Interest keywords that add the qualifier tag (crew.py line 432). -/
def interest_keywords : List String := ["interested", "want", "need", "looking for", "buy"]

/-- Fixed apology returned when the try block raises (crew.py line 445). -/
def apology : String := "I apologize, I encountered an error. Please try again."

/-- Embedding of `AutoXlooCrew.process_customer_query` (crew.py lines
377-449).  The conversation store is a total map from identifier to turn
list (a missing dict key reads as `[]`).  `freshId` is the uuid drawn when
the caller passes no usable identifier (Python falsiness: `None` or the
empty string), `ts` the uuid used as timestamp, and `gen` the outcome of the
external `crew.kickoff` call, `.error` modelling an exception raised inside
the `try` block.  Returns the reply dict and the updated store. -/
def process_customer_query (conversations : String → List Turn) (message : String)
    (conversation_id : Option String) (freshId ts : String)
    (gen : Except Unit String) : QueryResult × (String → List Turn) :=
  let cid := match conversation_id with
    | some s => if s = "" then freshId else s
    | none => freshId
  let conversations1 := fun id =>
    if id = cid then conversations id ++ [⟨"user", message, ts⟩] else conversations id
  let message_lower := pyLower message
  let routed : Except Unit (String × List String) :=
    if scheduling_keywords.any (fun k => strContains message_lower k) then
      gen.map (fun r => (r, ["scheduling"]))
    else
      gen.map (fun r =>
        if interest_keywords.any (fun k => strContains message_lower k) then
          (r, ["research", "qualifier"])
        else (r, ["research"]))
  match routed with
  | .ok (response, agents_used) =>
      ({ response := response, conversation_id := cid,
         actions_taken := [⟨"agent_response", agents_used⟩],
         agents_used := agents_used }, conversations1)
  | .error _ =>
      ({ response := apology, conversation_id := cid,
         actions_taken := [], agents_used := [] }, conversations1)

/-- Iterates `process_customer_query` over a list of calls, each a triple of
message text, timestamp uuid and generation outcome, all with the same
conversation identifier. -/
def runQueries (conversations : String → List Turn) (cid : String) :
    List (String × String × Except Unit String) → (String → List Turn)
  | [] => conversations
  | call :: rest =>
      runQueries
        (process_customer_query conversations call.1 (some cid) "fresh" call.2.1 call.2.2).2
        cid rest

/-- Confirmation number embedded in the scheduling task description
(crew.py line 350): `TD-` followed by the first five characters of the
uuid4 string, uppercased. -/
def scheduling_confirmation (u : String) : String := "TD-" ++ pyUpper (pySlice u 5)

/-- Confirmation number produced by the `book_test_drive` tool
(tools.py line 112): `TD-` followed by the first eight characters of the
uuid4 string, uppercased. -/
def book_test_drive_confirmation (u : String) : String := "TD-" ++ pyUpper (pySlice u 8)

/-- Character class of uppercase alphanumeric characters. -/
def isUpperAlnum (c : Char) : Bool := c.isUpper || c.isDigit

/-- Pattern from the spec: `TD-` followed by exactly five uppercase
alphanumeric characters. -/
def matchesTD5 (s : String) : Bool :=
  s.data.take 3 == "TD-".data && s.data.length == 8 && (s.data.drop 3).all isUpperAlnum

/-- Variant pattern with exactly eight trailing uppercase alphanumeric
characters, for the amended confirmation-format claim. -/
def matchesTD8 (s : String) : Bool :=
  s.data.take 3 == "TD-".data && s.data.length == 11 && (s.data.drop 3).all isUpperAlnum

/-- Characters that uuid4 string positions outside the dashes draw from:
the lowercase hexadecimal digits. -/
def hexChars : List Char := "0123456789abcdef".data

/-- A list transformer that is a filter by some pointwise predicate; every
criterion stage of `_search_inventory` has this shape. -/
def FilterLike (f : List Vehicle → List Vehicle) : Prop :=
  ∃ q : Vehicle → Bool, ∀ l : List Vehicle, f l = l.filter q

/-- Sample vehicle: an available Honda sedan, for witnesses. -/
def hondaCivic : Vehicle :=
  ⟨"AX10001", "Honda", "Civic", 2022, "sedan", 24000, some ["Navigation System"], some true⟩

/-- Sample vehicle with no availability flag at all, for witnesses. -/
def noFlagSuv : Vehicle :=
  ⟨"AX10002", "Toyota", "RAV4", 2023, "suv", 31000, some [], none⟩

/-- Sample uuid4 string used in confirmation-format witnesses. -/
def sampleUuid : String := "a1b2c3d4-e5f6-4a7b-8c9d-0e1f2a3b4c5d"


/-- Decomposition of `_search_inventory` into its named stage functions. -/
theorem search_eq_stages (inventory : List Vehicle) (criteria : SearchCriteria) :
    _search_inventory inventory criteria =
      (availabilityFilter (featuresFilter criteria (yearFilter criteria (makeFilter criteria
        (categoryFilter criteria (minPriceFilter criteria
          (maxPriceFilter criteria inventory))))))).take 10 := rfl

/-- Every price-ceiling stage output is a subsequence of its input. -/
theorem maxPriceFilter_sublist (criteria : SearchCriteria) (l : List Vehicle) :
    (maxPriceFilter criteria l).Sublist l := by
  unfold maxPriceFilter
  cases criteria.max_price with
  | none => exact List.Sublist.refl l
  | some p => exact List.filter_sublist l

/-- Every price-floor stage output is a subsequence of its input. -/
theorem minPriceFilter_sublist (criteria : SearchCriteria) (l : List Vehicle) :
    (minPriceFilter criteria l).Sublist l := by
  unfold minPriceFilter
  cases criteria.min_price with
  | none => exact List.Sublist.refl l
  | some p => exact List.filter_sublist l

/-- Every category stage output is a subsequence of its input. -/
theorem categoryFilter_sublist (criteria : SearchCriteria) (l : List Vehicle) :
    (categoryFilter criteria l).Sublist l := by
  unfold categoryFilter
  cases criteria.category with
  | none => exact List.Sublist.refl l
  | some c => exact List.filter_sublist l

/-- Every make stage output is a subsequence of its input. -/
theorem makeFilter_sublist (criteria : SearchCriteria) (l : List Vehicle) :
    (makeFilter criteria l).Sublist l := by
  unfold makeFilter
  cases criteria.make with
  | none => exact List.Sublist.refl l
  | some m => exact List.filter_sublist l

/-- Every year stage output is a subsequence of its input. -/
theorem yearFilter_sublist (criteria : SearchCriteria) (l : List Vehicle) :
    (yearFilter criteria l).Sublist l := by
  unfold yearFilter
  cases criteria.year with
  | none => exact List.Sublist.refl l
  | some y => exact List.filter_sublist l

/-- Repeated feature filtering yields a subsequence of the input. -/
theorem foldl_featureFilter_sublist (fs : List String) (l : List Vehicle) :
    (fs.foldl (fun acc f => acc.filter (fun v => (v.features.getD []).contains f)) l).Sublist
      l := by
  induction fs generalizing l with
  | nil => exact List.Sublist.refl l
  | cons f rest ih => exact (ih _).trans (List.filter_sublist l)

/-- Every feature stage output is a subsequence of its input. -/
theorem featuresFilter_sublist (criteria : SearchCriteria) (l : List Vehicle) :
    (featuresFilter criteria l).Sublist l := by
  unfold featuresFilter
  cases criteria.features with
  | none => exact List.Sublist.refl l
  | some fs => exact foldl_featureFilter_sublist fs l

/-- Claim C3: for every inventory store and every SearchCriteria, the result
of the Inventory Filter has length at most 10 and is a subsequence of the
store, so the relative order of retained records is the original store
order. -/
theorem C3_cap_and_order (inventory : List Vehicle) (criteria : SearchCriteria) :
    (_search_inventory inventory criteria).length ≤ 10 ∧
      (_search_inventory inventory criteria).Sublist inventory := by
  rw [search_eq_stages]
  refine ⟨List.length_take_le 10 _, (List.take_sublist 10 _).trans ?_⟩
  exact (List.filter_sublist _).trans ((featuresFilter_sublist _ _).trans
    ((yearFilter_sublist _ _).trans ((makeFilter_sublist _ _).trans
      ((categoryFilter_sublist _ _).trans ((minPriceFilter_sublist _ _).trans
        (maxPriceFilter_sublist _ _))))))

/-- Claim C2: when the only present criterion is a price ceiling P, every
vehicle returned by the Inventory Filter has price at most P. -/
theorem C2_max_price_bound (inventory : List Vehicle) (P : Int) (v : Vehicle)
    (hv : v ∈ _search_inventory inventory { max_price := some P }) : v.price ≤ P := by
  simp only [_search_inventory] at hv
  have h1 := List.take_subset _ _ hv
  rw [List.mem_filter] at h1
  have h2 := h1.1
  rw [List.mem_filter] at h2
  exact of_decide_eq_true h2.2

/-- Witness for C2 at a concrete store and ceiling. -/
theorem C2_witness :
    (hondaCivic ∈ _search_inventory [hondaCivic] { max_price := some 25000 }) ∧
      hondaCivic.price ≤ 25000 :=
  ⟨by decide, C2_max_price_bound [hondaCivic] 25000 hondaCivic (by decide)⟩

/-- Claim C4: a vehicle whose availability flag is explicitly false never
appears in the result of the Inventory Filter, whatever the criteria. -/
theorem C4_availability (inventory : List Vehicle) (criteria : SearchCriteria) (v : Vehicle)
    (hv : v ∈ _search_inventory inventory criteria) : v.available ≠ some false := by
  rw [search_eq_stages] at hv
  have h1 := List.take_subset _ _ hv
  unfold availabilityFilter at h1
  rw [List.mem_filter] at h1
  intro hfalse
  rw [hfalse] at h1
  simp at h1

/-- Witness for C4: a record with no availability flag at all is treated as
available and does appear in the result. -/
theorem C4_witness :
    (noFlagSuv ∈ _search_inventory [noFlagSuv] {}) ∧ noFlagSuv.available ≠ some false :=
  ⟨by decide, C4_availability [noFlagSuv] {} noFlagSuv (by decide)⟩


/-- Repeated feature filtering equals one filter by the conjunction of the
feature tests. -/
theorem foldl_featureFilter_eq_filter_all (fs : List String) (l : List Vehicle) :
    fs.foldl (fun acc f => acc.filter (fun v => (v.features.getD []).contains f)) l =
      l.filter (fun v => fs.all (fun f => (v.features.getD []).contains f)) := by
  induction fs generalizing l with
  | nil => simp
  | cons f rest ih =>
    rw [List.foldl_cons, ih, List.filter_filter]
    congr 1
    funext v
    rw [List.all_cons]
    exact Bool.and_comm _ _

/-- The price-ceiling stage is a pointwise filter. -/
theorem filterLike_maxPriceFilter (criteria : SearchCriteria) :
    FilterLike (maxPriceFilter criteria) := by
  unfold FilterLike maxPriceFilter
  cases criteria.max_price with
  | none => exact ⟨fun _ => true, fun l => (List.filter_true l).symm⟩
  | some p => exact ⟨_, fun l => rfl⟩

/-- The price-floor stage is a pointwise filter. -/
theorem filterLike_minPriceFilter (criteria : SearchCriteria) :
    FilterLike (minPriceFilter criteria) := by
  unfold FilterLike minPriceFilter
  cases criteria.min_price with
  | none => exact ⟨fun _ => true, fun l => (List.filter_true l).symm⟩
  | some p => exact ⟨_, fun l => rfl⟩

/-- The category stage is a pointwise filter. -/
theorem filterLike_categoryFilter (criteria : SearchCriteria) :
    FilterLike (categoryFilter criteria) := by
  unfold FilterLike categoryFilter
  cases criteria.category with
  | none => exact ⟨fun _ => true, fun l => (List.filter_true l).symm⟩
  | some c => exact ⟨_, fun l => rfl⟩

/-- The make stage is a pointwise filter. -/
theorem filterLike_makeFilter (criteria : SearchCriteria) :
    FilterLike (makeFilter criteria) := by
  unfold FilterLike makeFilter
  cases criteria.make with
  | none => exact ⟨fun _ => true, fun l => (List.filter_true l).symm⟩
  | some m => exact ⟨_, fun l => rfl⟩

/-- The year stage is a pointwise filter. -/
theorem filterLike_yearFilter (criteria : SearchCriteria) :
    FilterLike (yearFilter criteria) := by
  unfold FilterLike yearFilter
  cases criteria.year with
  | none => exact ⟨fun _ => true, fun l => (List.filter_true l).symm⟩
  | some y => exact ⟨_, fun l => rfl⟩

/-- The feature stage is a pointwise filter. -/
theorem filterLike_featuresFilter (criteria : SearchCriteria) :
    FilterLike (featuresFilter criteria) := by
  unfold FilterLike featuresFilter
  cases criteria.features with
  | none => exact ⟨fun _ => true, fun l => (List.filter_true l).symm⟩
  | some fs =>
    exact ⟨fun v => fs.all (fun f => (v.features.getD []).contains f),
      fun l => foldl_featureFilter_eq_filter_all fs l⟩

/-- Two pointwise filters commute. -/
theorem filterLike_comm {f g : List Vehicle → List Vehicle} (hf : FilterLike f)
    (hg : FilterLike g) (l : List Vehicle) : f (g l) = g (f l) := by
  obtain ⟨q, hq⟩ := hf
  obtain ⟨r, hr⟩ := hg
  rw [hq, hr, hq, hr, List.filter_filter, List.filter_filter]
  congr 1
  funext v
  exact Bool.and_comm _ _

/-- Claim C8: applying the six per-criterion stages of the Inventory Filter
in any permuted order, then the availability filter, then the cap of 10,
gives exactly the implemented result: the stages are commuting conjunctive
narrowings. -/
theorem C8_stage_order_irrelevant (inventory : List Vehicle) (criteria : SearchCriteria)
    (fs : List (List Vehicle → List Vehicle))
    (hperm : fs.Perm [maxPriceFilter criteria, minPriceFilter criteria,
      categoryFilter criteria, makeFilter criteria, yearFilter criteria,
      featuresFilter criteria]) :
    (availabilityFilter (fs.foldl (fun l f => f l) inventory)).take 10 =
      _search_inventory inventory criteria := by
  have hmem : ∀ f ∈ fs, FilterLike f := by
    intro f hf
    have hf2 := hperm.subset hf
    simp only [List.mem_cons, List.not_mem_nil, or_false] at hf2
    rcases hf2 with h | h | h | h | h | h <;> subst h
    · exact filterLike_maxPriceFilter criteria
    · exact filterLike_minPriceFilter criteria
    · exact filterLike_categoryFilter criteria
    · exact filterLike_makeFilter criteria
    · exact filterLike_yearFilter criteria
    · exact filterLike_featuresFilter criteria
  have hcomm : ∀ x ∈ fs, ∀ y ∈ fs, ∀ z : List Vehicle,
      (fun l (f : List Vehicle → List Vehicle) => f l) ((fun l f => f l) z x) y =
        (fun l f => f l) ((fun l f => f l) z y) x := by
    intro x hx y hy z
    exact (filterLike_comm (hmem x hx) (hmem y hy) z).symm
  rw [List.Perm.foldl_eq' hperm hcomm inventory, search_eq_stages]
  rfl

/-- Witness for C8: swapping the first two stages on a concrete store. -/
theorem C8_witness :
    ([minPriceFilter {}, maxPriceFilter {}, categoryFilter {}, makeFilter {},
        yearFilter {}, featuresFilter {}].Perm
      [maxPriceFilter {}, minPriceFilter {}, categoryFilter {}, makeFilter {},
        yearFilter {}, featuresFilter {}]) ∧
    (availabilityFilter
        (List.foldl (fun l f => f l) [hondaCivic, noFlagSuv]
          [minPriceFilter {}, maxPriceFilter {}, categoryFilter {}, makeFilter {},
            yearFilter {}, featuresFilter {}])).take 10 =
      _search_inventory [hondaCivic, noFlagSuv] {} :=
  ⟨List.Perm.swap _ _ _,
    C8_stage_order_irrelevant [hondaCivic, noFlagSuv] {} _ (List.Perm.swap _ _ _)⟩


/-- Claim C1: the intent router gives the scheduling cue strict priority.
When generation succeeds, a message with a scheduling keyword yields
agents_used = [scheduling] only, even if interest cues are present; with no
scheduling keyword the route is research, and an interest cue only appends
the qualifier tag after research. -/
theorem C1_intent_priority (conversations : String → List Turn) (message : String)
    (conversation_id : Option String) (freshId ts r : String) :
    (process_customer_query conversations message conversation_id freshId ts
        (Except.ok r)).1.agents_used =
      (if scheduling_keywords.any (fun k => strContains (pyLower message) k) then
        ["scheduling"]
      else if interest_keywords.any (fun k => strContains (pyLower message) k) then
        ["research", "qualifier"]
      else ["research"]) := by
  unfold process_customer_query
  by_cases hs : scheduling_keywords.any (fun k => strContains (pyLower message) k) = true
  · simp [hs, Except.map]
  · by_cases hi : interest_keywords.any (fun k => strContains (pyLower message) k) = true
    · simp [hs, hi, Except.map]
    · simp [hs, hi, Except.map]

/-- Claim C6: when the external generation call raises (modelled by an
`.error` outcome), `process_customer_query` returns the fixed apology string
with empty action and agent lists, and no exception escapes (the embedding
is a total function). -/
theorem C6_error_fallback (conversations : String → List Turn) (message : String)
    (conversation_id : Option String) (freshId ts : String) (e : Unit) :
    (process_customer_query conversations message conversation_id freshId ts
        (Except.error e)).1.response =
      "I apologize, I encountered an error. Please try again." ∧
    (process_customer_query conversations message conversation_id freshId ts
        (Except.error e)).1.actions_taken = [] ∧
    (process_customer_query conversations message conversation_id freshId ts
        (Except.error e)).1.agents_used = [] := by
  unfold process_customer_query apology
  by_cases hs : scheduling_keywords.any (fun k => strContains (pyLower message) k) = true
  · simp [hs, Except.map]
  · simp [hs, Except.map]

/-- One call appends exactly one user turn to its conversation. -/
theorem process_store_append (conversations : String → List Turn) (message : String)
    (cid freshId ts : String) (gen : Except Unit String) (hcid : cid ≠ "") :
    (process_customer_query conversations message (some cid) freshId ts gen).2 cid =
      conversations cid ++ [⟨"user", message, ts⟩] := by
  unfold process_customer_query
  cases gen with
  | ok r =>
    by_cases hs : scheduling_keywords.any (fun k => strContains (pyLower message) k) = true <;>
      simp [hs, Except.map, hcid]
  | error e =>
    by_cases hs : scheduling_keywords.any (fun k => strContains (pyLower message) k) = true <;>
      simp [hs, Except.map, hcid]

/-- Store contents after a sequence of calls with the same identifier. -/
theorem runQueries_spec (cid : String) (hcid : cid ≠ "")
    (calls : List (String × String × Except Unit String)) :
    ∀ conversations : String → List Turn,
      runQueries conversations cid calls cid =
        conversations cid ++ calls.map (fun call => (⟨"user", call.1, call.2.1⟩ : Turn)) := by
  induction calls with
  | nil => intro conversations; simp [runQueries]
  | cons call rest ih =>
    intro conversations
    simp only [runQueries]
    rw [ih, process_store_append _ _ _ _ _ _ hcid]
    simp

/-- Claim C7: starting from a store with no turns under identifier cid, after
any sequence of calls with identifier cid — generation failures included,
since the user turn is appended before dispatch — the store maps cid to
exactly the user turns of those calls, in call order, with no assistant turn
ever persisted. -/
theorem C7_conversation_store (conversations0 : String → List Turn) (cid : String)
    (calls : List (String × String × Except Unit String))
    (hcid : cid ≠ "") (h0 : conversations0 cid = []) :
    runQueries conversations0 cid calls cid =
      calls.map (fun call => (⟨"user", call.1, call.2.1⟩ : Turn)) := by
  rw [runQueries_spec cid hcid calls conversations0, h0, List.nil_append]

/-- Witness for C7: two calls, the second one failing in generation. -/
theorem C7_witness :
    ("c1" : String) ≠ "" ∧ (fun _ : String => ([] : List Turn)) "c1" = [] ∧
      runQueries (fun _ => []) "c1"
          [("hello", "t1", Except.ok "r"), ("schedule a visit", "t2", Except.error ())]
          "c1" =
        [⟨"user", "hello", "t1"⟩, ⟨"user", "schedule a visit", "t2"⟩] :=
  ⟨by decide, rfl,
    C7_conversation_store (fun _ => []) "c1"
      [("hello", "t1", Except.ok "r"), ("schedule a visit", "t2", Except.error ())]
      (by decide) rfl⟩


/-- Effect of the make loop on the make field: the loop has no break, so
every match overwrites the field and the last matching name wins. -/
theorem foldl_make_step (ml : String) (ms : List String) (c0 : SearchCriteria) :
    (ms.foldl
        (fun c mk =>
          if strContains ml mk then { c with make := some (String.capitalize mk) } else c)
        c0).make =
      ((ms.filter (fun mk => strContains ml mk)).getLast?).elim c0.make
        (fun mk => some (String.capitalize mk)) := by
  induction ms generalizing c0 with
  | nil => rfl
  | cons mk rest ih =>
    rw [List.foldl_cons, ih]
    by_cases h : strContains ml mk = true
    · rw [List.filter_cons_of_pos h]
      cases hf : rest.filter (fun mk => strContains ml mk) with
      | nil => simp [h]
      | cons b bs =>
        rw [List.getLast?_cons_cons]
        cases hfl : (b :: bs).getLast? with
        | none => simp at hfl
        | some x => simp [hf, hfl]
    · rw [List.filter_cons_of_neg (by simp [h])]
      simp [h]

/-- The make loop never touches the category field. -/
theorem foldl_make_step_category (ml : String) (ms : List String) (c0 : SearchCriteria) :
    (ms.foldl
        (fun c mk =>
          if strContains ml mk then { c with make := some (String.capitalize mk) } else c)
        c0).category = c0.category := by
  induction ms generalizing c0 with
  | nil => rfl
  | cons mk rest ih =>
    rw [List.foldl_cons, ih]
    by_cases h : strContains ml mk = true <;> simp [h]

/-- Counterexample to claim C5 as stated: a message matching both honda and
toyota yields make Toyota, the last matching name in list order, not the
first. -/
theorem C5_counterexample :
    strContains (pyLower "honda toyota") "honda" = true ∧
    strContains (pyLower "honda toyota") "toyota" = true ∧
    (_extract_search_criteria "honda toyota").make = some "Toyota" ∧
    (_extract_search_criteria "honda toyota").make ≠ some "Honda" := by decide

/-- Claim C5 (amended): the Criteria Extractor stores as the make criterion
the LAST name of the fixed list, in list order, that occurs in the lowered
message, in title case; when no name occurs, the make field is absent. -/
theorem C5_make_extraction (message : String) :
    (_extract_search_criteria message).make =
      ((makes.filter (fun mk => strContains (pyLower message) mk)).getLast?).map
        String.capitalize := by
  simp only [_extract_search_criteria]
  rw [apply_ite SearchCriteria.make, foldl_make_step]
  cases h : (makes.filter (fun mk => strContains (pyLower message) mk)).getLast? with
  | none => simp [h, apply_ite SearchCriteria.make]
  | some x => simp [h]

/-- Claim C10: a message whose lowered text contains the two-letter
substring ev anywhere, with none of suv, truck or sedan present, gets the
category criterion electric. -/
theorem C10_ev_category (message : String)
    (hev : strContains (pyLower message) "ev" = true)
    (hsuv : strContains (pyLower message) "suv" = false)
    (htruck : strContains (pyLower message) "truck" = false)
    (hsedan : strContains (pyLower message) "sedan" = false) :
    (_extract_search_criteria message).category = some "electric" := by
  simp [_extract_search_criteria, apply_ite SearchCriteria.category,
    foldl_make_step_category, hev, hsuv, htruck, hsedan]

/-- Witness for C10 on the ordinary word never, which contains ev. -/
theorem C10_witness :
    strContains (pyLower "never") "ev" = true ∧
    strContains (pyLower "never") "suv" = false ∧
    strContains (pyLower "never") "truck" = false ∧
    strContains (pyLower "never") "sedan" = false ∧
    (_extract_search_criteria "never").category = some "electric" :=
  ⟨by decide, by decide, by decide, by decide,
    C10_ev_category "never" (by decide) (by decide) (by decide) (by decide)⟩


/-- Uppercasing a lowercase hex digit gives an uppercase alphanumeric. -/
theorem hexChars_toUpper : ∀ c ∈ hexChars, isUpperAlnum c.toUpper = true := by decide

/-- Character data of a TD confirmation built from the first n uuid
characters. -/
theorem confirmation_data (u : String) (n : Nat) :
    ("TD-" ++ pyUpper (pySlice u n)).data =
      'T' :: 'D' :: '-' :: (u.data.take n).map Char.toUpper := by
  rw [String.data_append]
  rfl

/-- Counterexample to claim C9 as stated: on a well-formed uuid4 string the
book_test_drive confirmation keeps eight uuid characters, so it does not
match the TD- plus five-character pattern. -/
theorem C9_counterexample :
    book_test_drive_confirmation sampleUuid = "TD-A1B2C3D4" ∧
    matchesTD5 (book_test_drive_confirmation sampleUuid) = false := by decide

/-- Claim C9 (amended): for every uuid-like string, at least eight
characters long with lowercase hex digits in its first eight positions, the
confirmation embedded in the scheduling task matches TD- followed by
exactly five uppercase alphanumeric characters, while the confirmation
returned by the book_test_drive tool matches TD- followed by exactly eight
uppercase alphanumeric characters. -/
theorem C9_confirmation_patterns (u : String)
    (hlen : 8 ≤ u.data.length)
    (hhex : ∀ c ∈ u.data.take 8, c ∈ hexChars) :
    matchesTD5 (scheduling_confirmation u) = true ∧
    matchesTD8 (book_test_drive_confirmation u) = true := by
  constructor
  · unfold matchesTD5 scheduling_confirmation
    rw [confirmation_data, Bool.and_eq_true, Bool.and_eq_true]
    refine ⟨⟨rfl, ?_⟩, ?_⟩
    · have hm : ((u.data.take 5).map Char.toUpper).length = 5 := by
        rw [List.length_map, List.length_take]
        omega
      have h5 : 5 ≤ u.length := by
        have hL : u.length = u.data.length := rfl
        omega
      simp [hm, h5]
    · show (((u.data.take 5).map Char.toUpper).all isUpperAlnum) = true
      rw [List.all_map, List.all_eq_true]
      intro c hc
      have h58 : u.data.take 5 = List.take 5 (u.data.take 8) := by
        rw [List.take_take]
        norm_num
      have hc8 : c ∈ u.data.take 8 := List.take_subset 5 (u.data.take 8) (h58 ▸ hc)
      exact hexChars_toUpper c (hhex c hc8)
  · unfold matchesTD8 book_test_drive_confirmation
    rw [confirmation_data, Bool.and_eq_true, Bool.and_eq_true]
    refine ⟨⟨rfl, ?_⟩, ?_⟩
    · have hm : ((u.data.take 8).map Char.toUpper).length = 8 := by
        rw [List.length_map, List.length_take]
        omega
      have h8 : 8 ≤ u.length := by
        have hL : u.length = u.data.length := rfl
        omega
      simp [hm, h8]
    · show (((u.data.take 8).map Char.toUpper).all isUpperAlnum) = true
      rw [List.all_map, List.all_eq_true]
      intro c hc
      exact hexChars_toUpper c (hhex c hc)

/-- Witness for the amended C9 on a concrete uuid4 string. -/
theorem C9_witness :
    8 ≤ sampleUuid.data.length ∧ (∀ c ∈ sampleUuid.data.take 8, c ∈ hexChars) ∧
      matchesTD5 (scheduling_confirmation sampleUuid) = true ∧
      matchesTD8 (book_test_drive_confirmation sampleUuid) = true :=
  ⟨by decide, by decide, C9_confirmation_patterns sampleUuid (by decide) (by decide)⟩

end AutoXloo
